import Mathlib

/-!
Shallow embedding of the test DNS responder in `evals/dns_server.py`
(class `TestDNSServer`): zone normalization, the query-resolution
algorithm of `_handle_query` (exact lookup, ancestor suffix walk,
CNAME chase, per-type record synthesis in `_make_rr`), and the
start/stop lifecycle control flow.

Domain names are modelled as lists of characters (`str(qname)` from the
codec), Python record values as the inductive `PyVal` (strings, ints and
tuples, the shapes the fixtures use), Python dicts as association lists
with insert-or-replace semantics, and a Python exception escaping
`_handle_query` as the `Except` error case (the serve loop catches it
and sends nothing).
-/

/-- A domain name: the character list of the Python string. -/
abbrev Name := List Char

/-- A Python value as used in zone data: strings, integers and tuples. -/
inductive PyVal where
  | str (s : String)
  | int (n : Int)
  | tuple (xs : List PyVal)

/-- A zone: Python dict from record-type tag to list of record values. -/
abbrev Zone := List (String × List PyVal)

/-- The zone store: Python dict from normalized zone name to zone. -/
abbrev Zones := List (Name × Zone)

/-- Python `d.get(k)` / `d[k]` on an association-list dict: first
(unique) binding for the key. -/
def dictGet {κ α : Type} [DecidableEq κ] : List (κ × α) → κ → Option α
  | [], _ => none
  | (k', v) :: rest, k => if k' = k then some v else dictGet rest k

/-- Python `d[k] = v`: replace in place if the key is bound, else append
(dicts preserve insertion order). -/
def dictInsert {κ α : Type} [DecidableEq κ] (k : κ) (v : α) :
    List (κ × α) → List (κ × α)
  | [] => [(k, v)]
  | (k', v') :: rest =>
    if k' = k then (k, v) :: rest else (k', v') :: dictInsert k v rest

/-- ASCII lowercasing of one character, as Python `str.lower` acts on
the ASCII names this fixture uses. -/
def lowerChar (c : Char) : Char :=
  if 'A' ≤ c ∧ c ≤ 'Z' then Char.ofNat (c.toNat + 32) else c

/-- Python `name.lower()` on a domain name. -/
def lowerName (n : Name) : Name := n.map lowerChar

/-- Python `qname.split(".")`. -/
def splitDot : Name → List Name
  | [] => [[]]
  | c :: cs =>
    if c = '.' then [] :: splitDot cs
    else
      match splitDot cs with
      | [] => [[c]]
      | p :: ps => (c :: p) :: ps

/-- Python `".".join(parts)`. -/
def joinDot : List Name → Name
  | [] => []
  | [p] => p
  | p :: q :: ps => p ++ '.' :: joinDot (q :: ps)

/-- `TestDNSServer._normalize_zones`: ensure every zone name ends with a
dot, lowercase it, and build the dict in iteration order. -/
def normalizeZones (raw : List (Name × Zone)) : Zones :=
  raw.foldl
    (fun acc entry =>
      let name :=
        if entry.1.getLast? = some '.' then entry.1 else entry.1 ++ ['.']
      dictInsert (lowerName name) entry.2 acc)
    []

/-- The synthesized resource-record data (`rdata` argument of `RR`),
one constructor per dnslib rdata class used by `_make_rr`. -/
inductive RData where
  | a (addr : PyVal)
  | aaaa (addr : PyVal)
  | ns (host : PyVal)
  | mx (host : PyVal) (priority : PyVal)
  | txt (s : PyVal)
  | cname (target : PyVal)
  | soa (fields : List PyVal)

/-- A synthesized answer record (`RR(name, qtype, rdata, ttl)`), with
the numeric `QTYPE` constant rendered by its mnemonic string. -/
structure RR where
  rname : Name
  rtype : String
  rdata : RData
  ttl : Nat

/-- The reply of `_handle_query`: the `DNSHeader` fields it sets plus
the accumulated answer section. -/
structure DNSResponse where
  hid : Nat
  qr : Nat
  aa : Nat
  ra : Nat
  rcode : Nat
  answers : List RR

/-- `TestDNSServer._make_rr`: synthesize one record from one zone value.
`Except.error` is an exception escaping the function: the `ValueError`
raised by unpacking an MX tuple whose length is not 2, and the
`TypeError` raised by `SOA(*data)` for a 7-tuple — dnslib's
`SOA.__init__(self, mname=None, rname=None, times=None)` takes three
parameters, so seven positional arguments never fit and the SOA branch
can never return a record. `.ok none` is the explicit `return None`
fall-through (SOA value that is not a 7-tuple, or an unsupported type
tag). -/
def makeRR (name : Name) (qtype : String) (data : PyVal) :
    Except Unit (Option RR) :=
  if qtype = "A" then .ok (some ⟨name, "A", RData.a data, 300⟩)
  else if qtype = "AAAA" then .ok (some ⟨name, "AAAA", RData.aaaa data, 300⟩)
  else if qtype = "NS" then .ok (some ⟨name, "NS", RData.ns data, 300⟩)
  else if qtype = "MX" then
    match data with
    | PyVal.tuple [p, h] => .ok (some ⟨name, "MX", RData.mx h p, 300⟩)
    | PyVal.tuple _ => .error ()
    | _ => .ok (some ⟨name, "MX", RData.mx data (PyVal.int 10), 300⟩)
  else if qtype = "TXT" then .ok (some ⟨name, "TXT", RData.txt data, 300⟩)
  else if qtype = "CNAME" then .ok (some ⟨name, "CNAME", RData.cname data, 300⟩)
  else if qtype = "SOA" then
    match data with
    | PyVal.tuple fields =>
      if fields.length = 7 then .error ()
      else .ok none
    | _ => .ok none
  else .ok none

/-- The answer-building loop of `_handle_query` (lines 124-127): one
`_make_rr` per value in stored order, `None` results skipped, a raised
exception aborting the whole reply. -/
def buildAnswers (name : Name) (qtype : String) :
    List PyVal → Except Unit (List RR)
  | [] => .ok []
  | v :: vs =>
    match makeRR name qtype v with
    | .error e => .error e
    | .ok none => buildAnswers name qtype vs
    | .ok (some rr) =>
      match buildAnswers name qtype vs with
      | .error e => .error e
      | .ok rrs => .ok (rr :: rrs)

/-- The ancestor suffix walk of `_handle_query` (lines 103-108):
`for i in range(1, len(parts)): parent = ".".join(parts[i:])`, returning
the first parent present in the zone dict. -/
def walkSuffixes (zones : Zones) : List Name → Option Zone
  | [] => none
  | [_] => none
  | _ :: b :: rest =>
    match dictGet zones (joinDot (b :: rest)) with
    | some z => some z
    | none => walkSuffixes zones (b :: rest)

/-- The key (parent name) the suffix walk selects, for reasoning about
which zone entry answered. -/
def walkKey (zones : Zones) : List Name → Option Name
  | [] => none
  | [_] => none
  | _ :: b :: rest =>
    match dictGet zones (joinDot (b :: rest)) with
    | some _ => some (joinDot (b :: rest))
    | none => walkKey zones (b :: rest)

/-- Zone selection of `_handle_query`: exact lookup, then the ancestor
suffix walk. -/
def zoneResolve (zones : Zones) (qname : Name) : Option Zone :=
  match dictGet zones qname with
  | some z => some z
  | none => walkSuffixes zones (splitDot qname)

/-- `TestDNSServer._handle_query` on an already-decoded query: lowercase
the query name, select the zone (NXDOMAIN if none), chase a CNAME when
the requested type has no records, otherwise synthesize one answer per
stored value. `Except.error` is an exception escaping to the serve
loop. -/
def handleQuery (zones : Zones) (reqId : Nat) (qname0 : Name)
    (qtype : String) : Except Unit DNSResponse :=
  let qname := lowerName qname0
  match zoneResolve zones qname with
  | none => .ok ⟨reqId, 1, 1, 0, 3, []⟩
  | some zone =>
    let records := (dictGet zone qtype).getD []
    match records, dictGet zone "CNAME" with
    | [], some cnames =>
      .ok ⟨reqId, 1, 1, 0, 0,
        cnames.map (fun t => ⟨qname, "CNAME", RData.cname t, 300⟩)⟩
    | _, _ =>
      match buildAnswers qname qtype records with
      | .error e => .error e
      | .ok rrs => .ok ⟨reqId, 1, 1, 0, 0, rrs⟩

/-- One iteration of `TestDNSServer._serve` for a decodable query: a
response is sent only when `_handle_query` returns without raising. -/
def serveDatagram (zones : Zones) (reqId : Nat) (qname0 : Name)
    (qtype : String) : Option DNSResponse :=
  match handleQuery zones reqId qname0 qtype with
  | .error _ => none
  | .ok r => some r

/-- Lifecycle state of `TestDNSServer`: the `_running` flag, whether
`_socket` is bound (not `None`), and whether `_thread` is set. -/
structure ServerState where
  running : Bool
  sockBound : Bool
  thrSet : Bool
deriving DecidableEq, Repr

/-- `TestDNSServer.start`: early return when already running, otherwise
bind the socket, set the flag and spawn the worker. The boolean reports
whether a bind was attempted. -/
def startServer (s : ServerState) : ServerState × Bool :=
  if s.running then (s, false)
  else (⟨true, true, true⟩, true)

/-- `TestDNSServer.stop`: clear the flag, join the thread if set (the
thread object is kept), close and drop the socket if bound. -/
def stopServer (s : ServerState) : ServerState :=
  ⟨false, false, s.thrSet⟩

/-- Whether a Python value is a string. -/
def isStr : PyVal → Bool
  | PyVal.str _ => true
  | _ => false

/-- Whether a Python value is an integer. -/
def isInt : PyVal → Bool
  | PyVal.int _ => true
  | _ => false

/-- Well-formed record value of a given type, per the specified value
shapes: address/name/text types carry a string, MX a
(priority: integer, host: string) pair, SOA a 7-tuple
(primary-ns, responsible-mailbox, serial, refresh, retry, expire,
minimum-ttl). -/
def wellFormedValue (t : String) (v : PyVal) : Bool :=
  if t = "A" ∨ t = "AAAA" ∨ t = "NS" ∨ t = "CNAME" ∨ t = "TXT" then
    isStr v
  else if t = "MX" then
    match v with
    | PyVal.tuple [p, q] => isInt p && isStr q
    | _ => false
  else if t = "SOA" then
    match v with
    | PyVal.tuple fs => fs.length == 7
    | _ => false
  else false

/-- Whether a Python value is a tuple of length 7 — the shape the SOA
branch of `_make_rr` selects before calling `SOA(*data)`. -/
def isSevenTuple : PyVal → Bool
  | PyVal.tuple xs => xs.length == 7
  | _ => false

/-- Helper for `validParts`: every label non-empty until a final empty
label (the one the trailing dot of the name produces). -/
def validTail : List Name → Bool
  | [] => false
  | [l] => l.isEmpty
  | l :: rest => (!l.isEmpty) && validTail rest

/-- Shape of a query name's label split as produced by the wire-format
decoder: the root name `.` splits as two empty labels, any other name
splits as one or more non-empty labels followed by the empty label of
the trailing dot. -/
def validParts (parts : List Name) : Prop :=
  parts = [[], []] ∨ (2 ≤ parts.length ∧ validTail parts = true)

instance (parts : List Name) : Decidable (validParts parts) := by
  unfold validParts
  infer_instance

/-- The `spf-valid.dnstest.local` fixture zone of `test_zones.py`. -/
def spfValidZone : Zone :=
  [("A", [PyVal.str "192.0.2.1"]),
   ("TXT",
    [PyVal.str "v=spf1 ip4:192.0.2.0/24 include:_spf.google.com -all"])]

/-- The `cname-conflict.dnstest.local` fixture zone of `test_zones.py`. -/
def cnameConflictZone : Zone :=
  [("A", [PyVal.str "192.0.2.10"]),
   ("CNAME", [PyVal.str "target.example.com."])]

/-- The base `dnstest.local` fixture zone of `test_zones.py`. -/
def dnstestZone : Zone :=
  [("SOA",
    [PyVal.tuple [PyVal.str "ns1.dnstest.local", PyVal.str "admin.dnstest.local",
      PyVal.int 1, PyVal.int 3600, PyVal.int 600, PyVal.int 86400,
      PyVal.int 300]]),
   ("NS", [PyVal.str "ns1.dnstest.local.", PyVal.str "ns2.dnstest.local."])]

/-- A small zone store built like the fixture catalog. -/
def fixtureZones : Zones :=
  normalizeZones
    [("spf-valid.dnstest.local".toList, spfValidZone),
     ("cname-conflict.dnstest.local".toList, cnameConflictZone),
     ("dnstest.local".toList, dnstestZone)]

/-- A zone store whose MX list holds one well-formed pair and one
malformed 3-tuple. -/
def badMXZones : Zones :=
  normalizeZones
    [("badmx.test".toList,
      [("MX",
        [PyVal.tuple [PyVal.int 10, PyVal.str "mail1.badmx.test."],
         PyVal.tuple [PyVal.int 1, PyVal.int 2, PyVal.int 3]])])]

/-- A zone store whose SOA list holds one malformed 3-tuple and one
well-formed 7-tuple. -/
def badSOAZones : Zones :=
  normalizeZones
    [("badsoa.test".toList,
      [("SOA",
        [PyVal.tuple [PyVal.int 1, PyVal.int 2, PyVal.int 3],
         PyVal.tuple [PyVal.str "ns1.badsoa.test",
           PyVal.str "admin.badsoa.test", PyVal.int 1, PyVal.int 3600,
           PyVal.int 600, PyVal.int 86400, PyVal.int 300]])])]

/-- A zone store whose SOA list holds only a malformed 3-tuple. -/
def allBadSOAZones : Zones :=
  normalizeZones
    [("soabad.test".toList,
      [("SOA", [PyVal.tuple [PyVal.int 1, PyVal.int 2, PyVal.int 3]])])]

/-! ### Supporting lemmas -/

theorem zoneResolve_exact (zones : Zones) (qn : Name) (z : Zone)
    (h : dictGet zones qn = some z) : zoneResolve zones qn = some z := by
  unfold zoneResolve
  rw [h]

theorem makeRR_shape (n : Name) (t : String) (v : PyVal) (rr : RR)
    (h : makeRR n t v = .ok (some rr)) : rr.rname = n ∧ rr.ttl = 300 := by
  unfold makeRR at h
  repeat' split at h
  all_goals
    first
      | exact Except.noConfusion h
      | (injection h with h1
         first
           | exact Option.noConfusion h1
           | (injection h1 with h2
              subst h2
              exact ⟨rfl, rfl⟩))

theorem buildAnswers_rname_ttl (n : Name) (t : String) (vs : List PyVal)
    (rrs : List RR) (h : buildAnswers n t vs = .ok rrs) :
    ∀ rr ∈ rrs, rr.rname = n ∧ rr.ttl = 300 := by
  induction vs generalizing rrs with
  | nil =>
    unfold buildAnswers at h
    injection h with h1
    subst h1
    intro rr hrr
    cases hrr
  | cons v vs ih =>
    unfold buildAnswers at h
    cases hm : makeRR n t v with
    | error e => rw [hm] at h; exact Except.noConfusion h
    | ok o =>
      rw [hm] at h
      cases o with
      | none => exact ih rrs h
      | some rr0 =>
        cases hb : buildAnswers n t vs with
        | error e => rw [hb] at h; exact Except.noConfusion h
        | ok rrs0 =>
          rw [hb] at h
          injection h with h1
          subst h1
          intro rr hrr
          rcases List.mem_cons.mp hrr with rfl | hmem
          · exact makeRR_shape n t v rr hm
          · exact ih rrs0 hb rr hmem

theorem buildAnswers_error_of_mem (n : Name) (t : String) (vs : List PyVal)
    (v : PyVal) (hv : v ∈ vs) (he : makeRR n t v = .error ()) :
    buildAnswers n t vs = .error () := by
  induction vs with
  | nil => cases hv
  | cons w ws ih =>
    unfold buildAnswers
    rcases List.mem_cons.mp hv with rfl | hv2
    · rw [he]
    · cases hm : makeRR n t w with
      | error e => cases e; rfl
      | ok o =>
        cases o with
        | none => exact ih hv2
        | some rr0 => rw [ih hv2]

theorem walkSuffixes_eq_walkKey (zones : Zones) (parts : List Name) :
    walkSuffixes zones parts =
      (walkKey zones parts).bind (fun k => dictGet zones k) := by
  induction parts with
  | nil => rfl
  | cons a rest ih =>
    cases rest with
    | nil => rfl
    | cons b rest2 =>
      unfold walkSuffixes walkKey
      cases hd : dictGet zones (joinDot (b :: rest2)) with
      | some z => simp [hd]
      | none => simpa [hd] using ih

theorem walkKey_is_suffix (zones : Zones) (parts : List Name) (k : Name)
    (h : walkKey zones parts = some k) :
    ∃ i, 1 ≤ i ∧ i < parts.length ∧ k = joinDot (parts.drop i) ∧
      (dictGet zones k).isSome := by
  induction parts generalizing k with
  | nil => exact Option.noConfusion h
  | cons a rest ih =>
    cases rest with
    | nil => exact Option.noConfusion h
    | cons b rest2 =>
      unfold walkKey at h
      cases hd : dictGet zones (joinDot (b :: rest2)) with
      | some z =>
        rw [hd] at h
        injection h with h1
        subst h1
        exact ⟨1, le_refl 1, by simp, rfl, by simp [hd]⟩
      | none =>
        rw [hd] at h
        obtain ⟨i, h1, h2, h3, h4⟩ := ih k h
        refine ⟨i + 1, by omega, by simpa using h2, ?_, h4⟩
        simpa using h3

theorem walkSuffixes_first_match (zones : Zones) (parts : List Name)
    (i : Nat) (z : Zone) (h1 : 1 ≤ i) (h2 : i < parts.length)
    (hz : dictGet zones (joinDot (parts.drop i)) = some z)
    (hfirst : ∀ j < i, 1 ≤ j →
      dictGet zones (joinDot (parts.drop j)) = none) :
    walkSuffixes zones parts = some z := by
  induction parts generalizing i with
  | nil => simp at h2
  | cons a rest ih =>
    cases rest with
    | nil => simp at h2; omega
    | cons b rest2 =>
      unfold walkSuffixes
      cases i with
      | zero => omega
      | succ i2 =>
        cases i2 with
        | zero =>
          rw [List.drop_succ_cons, List.drop_zero] at hz
          rw [hz]
        | succ i3 =>
          have hnone : dictGet zones (joinDot (b :: rest2)) = none := by
            have := hfirst 1 (by omega) (by omega)
            rwa [List.drop_succ_cons, List.drop_zero] at this
          rw [hnone]
          apply ih (i3 + 1) (by omega) (by simpa using h2)
          · rwa [List.drop_succ_cons] at hz
          · intro j hj hj1
            have := hfirst (j + 1) (by omega) (by omega)
            rwa [List.drop_succ_cons] at this

theorem joinDot_cons (l : Name) (s : List Name) (hs : s ≠ []) :
    joinDot (l :: s) = l ++ '.' :: joinDot s := by
  cases s with
  | nil => exact absurd rfl hs
  | cons b r => rfl

theorem validTail_joinDot_ne_root (s : List Name)
    (h : validTail s = true) : joinDot s ≠ ['.'] := by
  cases s with
  | nil => exact Bool.noConfusion h
  | cons l r =>
    cases r with
    | nil =>
      have hl : l = [] := by simpa [validTail] using h
      subst hl
      simp [joinDot]
    | cons m r2 =>
      simp only [validTail, Bool.and_eq_true, Bool.not_eq_true'] at h
      intro heq
      rw [joinDot_cons l (m :: r2) (by simp)] at heq
      have hlen := congrArg List.length heq
      simp at hlen
      have : l = [] := List.length_eq_zero.mp (by omega)
      rw [this] at h
      simp at h

theorem validTail_drop (parts : List Name) (i : Nat)
    (h : validTail parts = true) (hi : i < parts.length) :
    validTail (parts.drop i) = true := by
  induction parts generalizing i with
  | nil => simp at hi
  | cons l r ih =>
    cases i with
    | zero => simpa using h
    | succ j =>
      rw [List.drop_succ_cons]
      cases r with
      | nil => simp at hi
      | cons m r2 =>
        have h2 : validTail (m :: r2) = true := by
          simp only [validTail, Bool.and_eq_true] at h
          exact h.2
        exact ih j h2 (by simpa using hi)

theorem validParts_drop_ne_root (parts : List Name) (i : Nat)
    (hv : validParts parts) (h1 : 1 ≤ i) (h2 : i < parts.length) :
    joinDot (parts.drop i) ≠ ['.'] := by
  rcases hv with rfl | ⟨hlen2, ht⟩
  · have hi1 : i = 1 := by simp at h2; omega
    subst hi1
    decide
  · exact validTail_joinDot_ne_root _ (validTail_drop parts i ht h2)

theorem makeRR_soa_malformed (n : Name) (v : PyVal)
    (h : isSevenTuple v = false) : makeRR n "SOA" v = .ok none := by
  cases v with
  | str s => rfl
  | int m => rfl
  | tuple xs =>
    have hx : xs.length ≠ 7 := by simpa [isSevenTuple] using h
    simp [makeRR, hx]

theorem makeRR_soa_seven (n : Name) (xs : List PyVal)
    (h : xs.length = 7) : makeRR n "SOA" (PyVal.tuple xs) = .error () := by
  simp [makeRR, h]

theorem buildAnswers_soa_all_malformed (n : Name) (vs : List PyVal)
    (h : ∀ v ∈ vs, isSevenTuple v = false) :
    buildAnswers n "SOA" vs = .ok [] := by
  induction vs with
  | nil => rfl
  | cons v vs ih =>
    have h1 := makeRR_soa_malformed n v (h v (by simp))
    have h2 := ih (fun w hw => h w (by simp [hw]))
    simp only [buildAnswers, h1, h2]

theorem makeRR_mx_badtuple (n : Name) (xs : List PyVal)
    (h : xs.length ≠ 2) : makeRR n "MX" (PyVal.tuple xs) = .error () := by
  rcases xs with _ | ⟨p, _ | ⟨q, _ | ⟨r, rest⟩⟩⟩
  · rfl
  · rfl
  · exact absurd rfl h
  · rfl

theorem handleQuery_none (zones : Zones) (reqId : Nat) (q : Name)
    (t : String) (h : zoneResolve zones (lowerName q) = none) :
    handleQuery zones reqId q t = .ok ⟨reqId, 1, 1, 0, 3, []⟩ := by
  simp only [handleQuery, h]

theorem handleQuery_some (zones : Zones) (reqId : Nat) (q : Name)
    (t : String) (zone : Zone)
    (h : zoneResolve zones (lowerName q) = some zone) :
    handleQuery zones reqId q t =
      match (dictGet zone t).getD [], dictGet zone "CNAME" with
      | [], some cnames =>
        .ok ⟨reqId, 1, 1, 0, 0,
          cnames.map (fun c => ⟨lowerName q, "CNAME", RData.cname c, 300⟩)⟩
      | _, _ =>
        match buildAnswers (lowerName q) t ((dictGet zone t).getD []) with
        | .error e => .error e
        | .ok rrs => .ok ⟨reqId, 1, 1, 0, 0, rrs⟩ := by
  simp only [handleQuery, h]

theorem handleQuery_owner_names (zones : Zones) (reqId : Nat) (q : Name)
    (t : String) (resp : DNSResponse)
    (h : handleQuery zones reqId q t = .ok resp) :
    ∀ rr ∈ resp.answers, rr.rname = lowerName q := by
  cases hres : zoneResolve zones (lowerName q) with
  | none =>
    rw [handleQuery_none zones reqId q t hres] at h
    injection h with h1
    subst h1
    intro rr hrr
    cases hrr
  | some zone =>
    rw [handleQuery_some zones reqId q t zone hres] at h
    split at h
    · injection h with h1
      subst h1
      intro rr hrr
      obtain ⟨c, hc, rfl⟩ := List.mem_map.mp hrr
      rfl
    · split at h
      · exact Except.noConfusion h
      · rename_i rrs hb
        injection h with h1
        subst h1
        intro rr hrr
        exact (buildAnswers_rname_ttl _ t _ rrs hb rr hrr).1

/-! ### Claim theorems -/

/-- C1 (code bug at SOA): the claim states the documented behaviour —
the in-code comment says SOA data should be the 7-tuple
(mname, rname, serial, refresh, retry, expire, minimum) and the base
fixture `dnstest.local` configures exactly that — but
`RR(..., rdata=SOA(*data), ...)` passes seven positional arguments to
dnslib's three-parameter `SOA(mname, rname, times)` constructor. The
TypeError escapes `_handle_query` and the serve loop drops the
datagram, so a well-formed SOA query gets no response instead of the
claimed NOERROR answer. -/
theorem C1_soa_dropped :
    handleQuery fixtureZones 8 ("dnstest.local.".toList) "SOA" =
      .error () ∧
    serveDatagram fixtureZones 8 ("dnstest.local.".toList) "SOA" = none :=
  ⟨rfl, rfl⟩

/-- C4: when the requested type has an empty record list in the
resolved zone and the zone has a CNAME entry, the response carries
result code 0 and exactly one CNAME-typed answer per configured CNAME
value (with the original lowercased query name as owner), and nothing
else. -/
theorem C4_cname_chase (zones : Zones) (reqId : Nat) (q : Name)
    (t : String) (zone : Zone) (cnames : List PyVal)
    (hz : zoneResolve zones (lowerName q) = some zone)
    (ht : (dictGet zone t).getD [] = [])
    (hc : dictGet zone "CNAME" = some cnames) :
    handleQuery zones reqId q t =
      .ok ⟨reqId, 1, 1, 0, 0,
        cnames.map (fun c => ⟨lowerName q, "CNAME", RData.cname c, 300⟩)⟩ := by
  rw [handleQuery_some zones reqId q t zone hz]
  simp only [ht, hc]

/-- C5: when neither the lowercased query name nor any ancestor suffix
tried by the walk matches a configured zone, the response has result
code 3 (NXDOMAIN) and zero answers. -/
theorem C5_nxdomain (zones : Zones) (reqId : Nat) (q : Name) (t : String)
    (hexact : dictGet zones (lowerName q) = none)
    (hwalk : walkSuffixes zones (splitDot (lowerName q)) = none) :
    handleQuery zones reqId q t = .ok ⟨reqId, 1, 1, 0, 3, []⟩ := by
  apply handleQuery_none
  unfold zoneResolve
  rw [hexact, hwalk]

/-- C6: when the resolved zone has an empty record list for the
requested type and no CNAME entry, the response has result code 0
(NOERROR) and zero answers — distinct from NXDOMAIN. -/
theorem C6_noerror_empty (zones : Zones) (reqId : Nat) (q : Name)
    (t : String) (zone : Zone)
    (hz : zoneResolve zones (lowerName q) = some zone)
    (ht : (dictGet zone t).getD [] = [])
    (hc : dictGet zone "CNAME" = none) :
    handleQuery zones reqId q t = .ok ⟨reqId, 1, 1, 0, 0, []⟩ := by
  rw [handleQuery_some zones reqId q t zone hz]
  simp only [ht, hc]
  rfl

/-- C3: with no exact match, the resolver answers from the first
ancestor suffix (tried from the immediate parent onward) present in the
zone store; the walk agrees with the key-reporting variant `walkKey`,
and for a well-formed query name the walk never selects the root key
`.`, so a configured root zone is never chosen by delegation. -/
theorem C3_delegation_walk (zones : Zones) (q : Name) :
    (∀ (i : Nat) (z : Zone),
      dictGet zones (lowerName q) = none →
      1 ≤ i → i < (splitDot (lowerName q)).length →
      dictGet zones (joinDot ((splitDot (lowerName q)).drop i)) = some z →
      (∀ j < i, 1 ≤ j →
        dictGet zones (joinDot ((splitDot (lowerName q)).drop j)) = none) →
      zoneResolve zones (lowerName q) = some z) ∧
    walkSuffixes zones (splitDot (lowerName q)) =
      (walkKey zones (splitDot (lowerName q))).bind
        (fun k => dictGet zones k) ∧
    (validParts (splitDot (lowerName q)) →
      ∀ k, walkKey zones (splitDot (lowerName q)) = some k → k ≠ ['.']) := by
  refine ⟨?_, walkSuffixes_eq_walkKey zones _, ?_⟩
  · intro i z hexact h1 h2 hz hfirst
    unfold zoneResolve
    rw [hexact]
    exact walkSuffixes_first_match zones _ i z h1 h2 hz hfirst
  · intro hv k hk
    obtain ⟨i, h1, h2, h3, _⟩ := walkKey_is_suffix zones _ k hk
    subst h3
    exact validParts_drop_ne_root _ i hv h1 h2

/-- C7: resolution depends on the query name only through its
lowercased form, so two query names that agree after lowercasing (two
case variants of the same name) produce identical responses. -/
theorem C7_case_insensitive (zones : Zones) (reqId : Nat) (q1 q2 : Name)
    (t : String) (h : lowerName q1 = lowerName q2) :
    handleQuery zones reqId q1 t = handleQuery zones reqId q2 t := by
  simp only [handleQuery, h]

/-- C8: every response produced for a decodable query copies the
request id and has qr=1, aa=1, ra=0; the result code is 3 exactly when
no zone and no ancestor matched, and 0 otherwise. -/
theorem C8_header_invariants (zones : Zones) (reqId : Nat) (q : Name)
    (t : String) (resp : DNSResponse)
    (h : handleQuery zones reqId q t = .ok resp) :
    resp.hid = reqId ∧ resp.qr = 1 ∧ resp.aa = 1 ∧ resp.ra = 0 ∧
      (zoneResolve zones (lowerName q) = none → resp.rcode = 3) ∧
      (zoneResolve zones (lowerName q) ≠ none → resp.rcode = 0) := by
  cases hres : zoneResolve zones (lowerName q) with
  | none =>
    rw [handleQuery_none zones reqId q t hres] at h
    injection h with h1
    subst h1
    exact ⟨rfl, rfl, rfl, rfl, fun _ => rfl, fun hn => absurd rfl hn⟩
  | some zone =>
    rw [handleQuery_some zones reqId q t zone hres] at h
    split at h
    · injection h with h1
      subst h1
      exact ⟨rfl, rfl, rfl, rfl, fun hn => Option.noConfusion hn,
        fun _ => rfl⟩
    · split at h
      · exact Except.noConfusion h
      · injection h with h1
        subst h1
        exact ⟨rfl, rfl, rfl, rfl, fun hn => Option.noConfusion hn,
          fun _ => rfl⟩

/-- C9: `start()` on an already-running server changes nothing and
attempts no second bind; a second `start()` after any `start()` is such
a no-op; `stop()` after `stop()` reproduces the same stopped state. -/
theorem C9_lifecycle_idempotent (s : ServerState) :
    (s.running = true → startServer s = (s, false)) ∧
    startServer (startServer s).1 = ((startServer s).1, false) ∧
    stopServer (stopServer s) = stopServer s := by
  refine ⟨?_, ?_, rfl⟩
  · intro h
    simp [startServer, h]
  · unfold startServer
    by_cases h : s.running
    · simp [h]
    · simp [h]

/-- C10: when the query name has no exact zone match and the ancestor
walk supplies the zone (delegation), every answer record's owner name
is still the original lowercased query name, not the ancestor's name. -/
theorem C10_delegated_owner (zones : Zones) (reqId : Nat) (q : Name)
    (t : String) (zone : Zone) (resp : DNSResponse)
    (hexact : dictGet zones (lowerName q) = none)
    (hwalk : walkSuffixes zones (splitDot (lowerName q)) = some zone)
    (h : handleQuery zones reqId q t = .ok resp) :
    ∀ rr ∈ resp.answers, rr.rname = lowerName q :=
  handleQuery_owner_names zones reqId q t resp h

/-- C2 counterexample: two zones with a malformed record value of the
requested type next to a well-formed one — an MX 3-tuple beside a
well-formed pair, and an SOA 3-tuple beside a well-formed 7-tuple. The
claim says the malformed record is skipped and a response carrying the
remaining well-formed records is still sent; instead synthesis raises
(ValueError unpacking the MX tuple; TypeError passing the SOA 7-tuple
to dnslib's three-parameter constructor) and the serve loop sends
nothing at all. -/
theorem C2_counterexample :
    serveDatagram badMXZones 1 ("badmx.test.".toList) "MX" = none ∧
    serveDatagram badSOAZones 1 ("badsoa.test.".toList) "SOA" = none ∧
    wellFormedValue "MX"
      (PyVal.tuple [PyVal.int 10, PyVal.str "mail1.badmx.test."]) = true :=
  ⟨rfl, rfl, rfl⟩

/-- C2 (amended): an SOA value that is not a 7-tuple is indeed silently
skipped — when every SOA value of the zone is malformed this way, the
query still gets a NOERROR response with zero answers — but no
response carrying the remaining well-formed records is ever sent: a
7-tuple SOA value raises in dnslib's three-parameter SOA constructor,
and an MX value that is a tuple of length other than 2 raises while
unpacking; in both cases the exception escapes the handler and the
serve loop drops the datagram (a non-tuple MX value is always coerced
to a default-priority pair, never skipped). -/
theorem C2_amended_skip_or_drop :
    (∀ (zones : Zones) (reqId : Nat) (q : Name) (zone : Zone)
      (vs : List PyVal),
      zoneResolve zones (lowerName q) = some zone →
      dictGet zone "SOA" = some vs → vs ≠ [] →
      (∀ v ∈ vs, isSevenTuple v = false) →
      handleQuery zones reqId q "SOA" = .ok ⟨reqId, 1, 1, 0, 0, []⟩) ∧
    (∀ (zones : Zones) (reqId : Nat) (q : Name) (zone : Zone)
      (vs xs : List PyVal),
      zoneResolve zones (lowerName q) = some zone →
      dictGet zone "SOA" = some vs → PyVal.tuple xs ∈ vs →
      xs.length = 7 →
      serveDatagram zones reqId q "SOA" = none) ∧
    (∀ (zones : Zones) (reqId : Nat) (q : Name) (zone : Zone)
      (vs xs : List PyVal),
      zoneResolve zones (lowerName q) = some zone →
      dictGet zone "MX" = some vs → PyVal.tuple xs ∈ vs →
      xs.length ≠ 2 →
      serveDatagram zones reqId q "MX" = none) := by
  refine ⟨?_, ?_, ?_⟩
  · intro zones reqId q zone vs hz ht hne hmal
    rw [handleQuery_some zones reqId q "SOA" zone hz]
    have hb := buildAnswers_soa_all_malformed (lowerName q) vs hmal
    cases vs with
    | nil => exact absurd rfl hne
    | cons v vs2 =>
      simp only [ht, Option.getD_some, hb]
  · intro zones reqId q zone vs xs hz ht hv h7
    have herr : buildAnswers (lowerName q) "SOA" vs = .error () :=
      buildAnswers_error_of_mem _ _ vs _ hv (makeRR_soa_seven _ xs h7)
    have hne : vs ≠ [] := List.ne_nil_of_mem hv
    have hq : handleQuery zones reqId q "SOA" = .error () := by
      rw [handleQuery_some zones reqId q "SOA" zone hz]
      cases vs with
      | nil => exact absurd rfl hne
      | cons w ws =>
        simp only [ht, Option.getD_some, herr]
    unfold serveDatagram
    rw [hq]
  · intro zones reqId q zone vs xs hz ht hv h2
    have herr : buildAnswers (lowerName q) "MX" vs = .error () :=
      buildAnswers_error_of_mem _ _ vs _ hv (makeRR_mx_badtuple _ xs h2)
    have hne : vs ≠ [] := List.ne_nil_of_mem hv
    have hq : handleQuery zones reqId q "MX" = .error () := by
      rw [handleQuery_some zones reqId q "MX" zone hz]
      cases vs with
      | nil => exact absurd rfl hne
      | cons w ws =>
        simp only [ht, Option.getD_some, herr]
    unfold serveDatagram
    rw [hq]

/-! ### Witnesses -/

/-- C2 witness: the all-malformed SOA zone gets an empty NOERROR
response, while a well-formed 7-tuple SOA value and a malformed MX
3-tuple each drop the whole datagram. -/
theorem C2_amended_witness :
    handleQuery allBadSOAZones 5 ("soabad.test.".toList) "SOA" =
      .ok ⟨5, 1, 1, 0, 0, []⟩ ∧
    serveDatagram badSOAZones 6 ("badsoa.test.".toList) "SOA" = none ∧
    serveDatagram badMXZones 2 ("badmx.test.".toList) "MX" = none := by
  refine ⟨?_, ?_, ?_⟩
  · exact C2_amended_skip_or_drop.1 allBadSOAZones 5 ("soabad.test.".toList)
      [("SOA", [PyVal.tuple [PyVal.int 1, PyVal.int 2, PyVal.int 3]])]
      [PyVal.tuple [PyVal.int 1, PyVal.int 2, PyVal.int 3]]
      rfl rfl (by simp) (by decide)
  · exact C2_amended_skip_or_drop.2.1 badSOAZones 6 ("badsoa.test.".toList)
      [("SOA",
        [PyVal.tuple [PyVal.int 1, PyVal.int 2, PyVal.int 3],
         PyVal.tuple [PyVal.str "ns1.badsoa.test",
           PyVal.str "admin.badsoa.test", PyVal.int 1, PyVal.int 3600,
           PyVal.int 600, PyVal.int 86400, PyVal.int 300]])]
      [PyVal.tuple [PyVal.int 1, PyVal.int 2, PyVal.int 3],
       PyVal.tuple [PyVal.str "ns1.badsoa.test",
         PyVal.str "admin.badsoa.test", PyVal.int 1, PyVal.int 3600,
         PyVal.int 600, PyVal.int 86400, PyVal.int 300]]
      [PyVal.str "ns1.badsoa.test", PyVal.str "admin.badsoa.test",
       PyVal.int 1, PyVal.int 3600, PyVal.int 600, PyVal.int 86400,
       PyVal.int 300]
      rfl rfl (List.Mem.tail _ (List.Mem.head _)) rfl
  · exact C2_amended_skip_or_drop.2.2 badMXZones 2 ("badmx.test.".toList)
      [("MX",
        [PyVal.tuple [PyVal.int 10, PyVal.str "mail1.badmx.test."],
         PyVal.tuple [PyVal.int 1, PyVal.int 2, PyVal.int 3]])]
      [PyVal.tuple [PyVal.int 10, PyVal.str "mail1.badmx.test."],
       PyVal.tuple [PyVal.int 1, PyVal.int 2, PyVal.int 3]]
      [PyVal.int 1, PyVal.int 2, PyVal.int 3]
      rfl rfl (List.Mem.tail _ (List.Mem.head _)) (by simp)

/-- C3 witness: `a.b.dnstest.local.` delegates to `dnstest.local.`
(the first matching ancestor, tried at index 2 after index 1 missed),
and the walk's selected key is not the root. -/
theorem C3_witness :
    zoneResolve fixtureZones (lowerName ("a.b.dnstest.local.".toList)) =
      some dnstestZone ∧
    ("dnstest.local.".toList : Name) ≠ ['.'] := by
  constructor
  · refine (C3_delegation_walk fixtureZones
      ("a.b.dnstest.local.".toList)).1 2 dnstestZone rfl (by omega)
      (by decide) rfl ?_
    intro j hj hj1
    have hj2 : j = 1 := by omega
    subst hj2
    rfl
  · exact (C3_delegation_walk fixtureZones ("a.b.dnstest.local.".toList)).2.2
      (by decide) ("dnstest.local.".toList) rfl

/-- C4 witness: an MX query against the `cname-conflict` fixture (A and
CNAME configured, no MX) yields the CNAME answer only. -/
theorem C4_witness :
    handleQuery fixtureZones 9 ("cname-conflict.dnstest.local.".toList)
      "MX" =
      .ok ⟨9, 1, 1, 0, 0,
        [⟨"cname-conflict.dnstest.local.".toList, "CNAME",
          RData.cname (PyVal.str "target.example.com."), 300⟩]⟩ :=
  C4_cname_chase fixtureZones 9 ("cname-conflict.dnstest.local.".toList)
    "MX" cnameConflictZone [PyVal.str "target.example.com."] rfl rfl rfl

/-- C5 witness: a name with no zone and no configured ancestor. -/
theorem C5_witness :
    handleQuery fixtureZones 3 ("nope.elsewhere.example.".toList) "A" =
      .ok ⟨3, 1, 1, 0, 3, []⟩ :=
  C5_nxdomain fixtureZones 3 ("nope.elsewhere.example.".toList) "A" rfl rfl

/-- C6 witness: AAAA query against `spf-valid` (no AAAA, no CNAME). -/
theorem C6_witness :
    handleQuery fixtureZones 4 ("spf-valid.dnstest.local.".toList) "AAAA" =
      .ok ⟨4, 1, 1, 0, 0, []⟩ :=
  C6_noerror_empty fixtureZones 4 ("spf-valid.dnstest.local.".toList)
    "AAAA" spfValidZone rfl rfl rfl

/-- C7 witness: the upper-case and lower-case spellings of the
`spf-valid` name resolve identically. -/
theorem C7_witness :
    handleQuery fixtureZones 7 ("SPF-VALID.DNSTEST.LOCAL.".toList) "A" =
      handleQuery fixtureZones 7 ("spf-valid.dnstest.local.".toList) "A" :=
  C7_case_insensitive fixtureZones 7 ("SPF-VALID.DNSTEST.LOCAL.".toList)
    ("spf-valid.dnstest.local.".toList) "A" (by decide)

/-- C8 witness: header fields of the A answer for `spf-valid`. -/
theorem C8_witness :
    (⟨7, 1, 1, 0, 0,
      [⟨"spf-valid.dnstest.local.".toList, "A",
        RData.a (PyVal.str "192.0.2.1"), 300⟩]⟩ : DNSResponse).hid = 7 ∧
    (⟨7, 1, 1, 0, 0,
      [⟨"spf-valid.dnstest.local.".toList, "A",
        RData.a (PyVal.str "192.0.2.1"), 300⟩]⟩ : DNSResponse).qr = 1 ∧
    (⟨7, 1, 1, 0, 0,
      [⟨"spf-valid.dnstest.local.".toList, "A",
        RData.a (PyVal.str "192.0.2.1"), 300⟩]⟩ : DNSResponse).aa = 1 ∧
    (⟨7, 1, 1, 0, 0,
      [⟨"spf-valid.dnstest.local.".toList, "A",
        RData.a (PyVal.str "192.0.2.1"), 300⟩]⟩ : DNSResponse).ra = 0 ∧
    (zoneResolve fixtureZones
        (lowerName ("spf-valid.dnstest.local.".toList)) = none →
      (⟨7, 1, 1, 0, 0,
        [⟨"spf-valid.dnstest.local.".toList, "A",
          RData.a (PyVal.str "192.0.2.1"), 300⟩]⟩ : DNSResponse).rcode = 3) ∧
    (zoneResolve fixtureZones
        (lowerName ("spf-valid.dnstest.local.".toList)) ≠ none →
      (⟨7, 1, 1, 0, 0,
        [⟨"spf-valid.dnstest.local.".toList, "A",
          RData.a (PyVal.str "192.0.2.1"), 300⟩]⟩ : DNSResponse).rcode = 0) :=
  C8_header_invariants fixtureZones 7 ("spf-valid.dnstest.local.".toList)
    "A"
    ⟨7, 1, 1, 0, 0,
      [⟨"spf-valid.dnstest.local.".toList, "A",
        RData.a (PyVal.str "192.0.2.1"), 300⟩]⟩ rfl

/-- C9 witness: concrete lifecycle states. -/
theorem C9_witness :
    startServer ⟨true, true, true⟩ = (⟨true, true, true⟩, false) ∧
    startServer (startServer ⟨false, false, false⟩).1 =
      ((startServer ⟨false, false, false⟩).1, false) ∧
    stopServer (stopServer ⟨true, true, true⟩) =
      stopServer ⟨true, true, true⟩ :=
  ⟨(C9_lifecycle_idempotent ⟨true, true, true⟩).1 rfl,
   (C9_lifecycle_idempotent ⟨false, false, false⟩).2.1,
   (C9_lifecycle_idempotent ⟨true, true, true⟩).2.2⟩

/-- C10 witness: `www.dnstest.local.` is answered from the delegated
`dnstest.local.` zone; both NS answers carry the queried child name. -/
theorem C10_witness :
    (⟨"www.dnstest.local.".toList, "NS",
      RData.ns (PyVal.str "ns1.dnstest.local."), 300⟩ : RR).rname =
      lowerName ("www.dnstest.local.".toList) ∧
    (⟨"www.dnstest.local.".toList, "NS",
      RData.ns (PyVal.str "ns2.dnstest.local."), 300⟩ : RR).rname =
      lowerName ("www.dnstest.local.".toList) :=
  ⟨C10_delegated_owner fixtureZones 7 ("www.dnstest.local.".toList) "NS"
    dnstestZone
    ⟨7, 1, 1, 0, 0,
      [⟨"www.dnstest.local.".toList, "NS",
        RData.ns (PyVal.str "ns1.dnstest.local."), 300⟩,
       ⟨"www.dnstest.local.".toList, "NS",
        RData.ns (PyVal.str "ns2.dnstest.local."), 300⟩]⟩ rfl rfl rfl
    _ (List.Mem.head _),
   C10_delegated_owner fixtureZones 7 ("www.dnstest.local.".toList) "NS"
    dnstestZone
    ⟨7, 1, 1, 0, 0,
      [⟨"www.dnstest.local.".toList, "NS",
        RData.ns (PyVal.str "ns1.dnstest.local."), 300⟩,
       ⟨"www.dnstest.local.".toList, "NS",
        RData.ns (PyVal.str "ns2.dnstest.local."), 300⟩]⟩ rfl rfl rfl
    _ (List.Mem.tail _ (List.Mem.head _))⟩
